import Mathlib

/-!
Shallow embedding of the MpyL launcher (`src/main.py`), a Minecraft version
resolver/launcher. The embedding covers the code the claims are about:

* `download_file` (lines 62-94): streaming fetch with progress reporting,
  modelled in two parts — the file-system/network effect trace, and the
  per-chunk progress-event emission.
* `download_version` (lines 129-175): the resolution pipeline — index lookup,
  descriptor fetch, main-jar download, per-library artifact downloads,
  classpath construction and persistence of `classpath.txt`.
* `download_lwjgl` (lines 97-127): the fixed LWJGL native bundle with its
  skip-if-extracted check.
* the classpath reconstruction in `launch_minecraft` (lines 226-233).

External effects (HTTP responses, the file system) are supplied as explicit
oracle functions; each run yields a result together with a trace of events
(network fetches, directory creations, file writes, archive extraction), so
that claims about "no write occurs" or "the fetcher is never invoked" become
statements about the trace.
-/

namespace MpyL

/-- The directory separator `os.path.join` inserts on the target platform
(the source is Windows-only: `%APPDATA%`, `windows` natives). -/
def osSep : String := "\\"

/-- `os.path.join(base, *parts)`: fold the parts onto the base path with the
separator.  No normalization is performed — exactly as `os.path.join`, a
`".."` part is concatenated like any other (the source never normalizes). -/
def ospJoin (base : String) (parts : List String) : String :=
  parts.foldl (fun acc p => acc ++ osSep ++ p) base

/-- Python's `str.split(c)` for a one-character separator: splits on every
occurrence, keeping empty segments (`"".split('/') == ['']`,
`"a//b".split('/') == ['a', '', 'b']`). -/
def splitChar (c : Char) (s : String) : List String :=
  (s.data.foldr
    (fun ch acc =>
      match acc with
      | [] => if ch = c then [[], []] else [[ch]]
      | seg :: rest =>
        if ch = c then [] :: seg :: rest else (ch :: seg) :: rest)
    ([[]] : List (List Char))).map List.asString

/-- The `artifact` object inside a library's `downloads` dict.  The code
only reads the keys `path` and `url`; each may be absent. -/
structure ArtifactDict where
  path : Option String
  url : Option String
deriving DecidableEq, Repr

/-- A library's `downloads` dict; the code only reads the `artifact` key
(`library['downloads'].get('artifact', {})`). -/
structure DownloadsDict where
  artifact : Option ArtifactDict
deriving DecidableEq, Repr

/-- One platform rule from the spec data model: `(os, applies)`.  Real
version manifests carry a `rules` key on library entries; the source code
never reads it, but it is part of the input data, so the model keeps it. -/
structure PlatformRule where
  os : String
  applies : Bool
deriving DecidableEq, Repr

/-- A library entry of a version descriptor, restricted to the fields the
code (or a claim) looks at: the optional `downloads` dict and the optional
platform `rules`. -/
structure Library where
  downloads : Option DownloadsDict
  rules : Option (List PlatformRule)
deriving DecidableEq, Repr

/-- A fetched version descriptor (`version_details`), restricted to the keys
the code reads: `mainClass`, `downloads.client.url`, `libraries`.  The
descriptor-fetch oracle returns `none` when `requests.get(url).json()`
raises (network/parse failure) — a returned value is a parsed document with
those keys present. -/
structure Descriptor where
  mainClass : String
  clientUrl : String
  libraries : List Library
deriving DecidableEq, Repr

/-- One row of the global version index: `{id, url}`. -/
structure IndexEntry where
  id : String
  url : String
deriving DecidableEq, Repr

/-- Observable effects of a run: network fetches, directory creation, file
writes and archive extraction. -/
inductive Event where
  | fetch (url : String)
  | mkdir (path : String)
  | mkdirParent (path : String)
  | fileWrite (path : String)
  | writeJson (path : String)
  | writeText (path : String) (content : String)
  | extract (destDir : String)
deriving DecidableEq, Repr

/-- Whether an event is a network fetch (`requests.get`). -/
def Event.isFetch : Event → Bool
  | .fetch _ => true
  | _ => false

/-- Whether an event writes to the file system. -/
def Event.isFsWrite : Event → Bool
  | .mkdir _ => true
  | .mkdirParent _ => true
  | .fileWrite _ => true
  | .writeJson _ => true
  | .writeText _ _ => true
  | .extract _ => true
  | _ => false

/-- `download_file(url, path, name)`, lines 62-94: issues `requests.get(url)`
unconditionally; on HTTP success creates the parent directory
(`os.makedirs(os.path.dirname(path))`) and streams the body into `path`,
returning `path`; on any failure logs, shows an error box and returns
`None`.  `fetchOk url` is the oracle for "the GET and the write succeeded".
Note there is no check whether `path` already exists. -/
def download_file (fetchOk : String → Bool) (url path : String) :
    Option String × List Event :=
  if fetchOk url then
    (some path, [Event.fetch url, Event.mkdirParent path, Event.fileWrite path])
  else
    (none, [Event.fetch url])

/-- `%APPDATA%/.minecraft/versions/<version_id>` (line 139). -/
def versionDir (appdata versionId : String) : String :=
  ospJoin appdata [".minecraft", "versions", versionId]

/-- `<version_dir>/<version_id>.jar` (line 144). -/
def jarPath (appdata versionId : String) : String :=
  ospJoin (versionDir appdata versionId) [versionId ++ ".jar"]

/-- `%APPDATA%/.minecraft/libraries` (line 152). -/
def librariesPath (appdata : String) : String :=
  ospJoin appdata [".minecraft", "libraries"]

/-- `os.path.join(libraries_path, *artifact['path'].split('/'))` (line 160):
the declared relative path is split on `/` and joined segment by segment
under the libraries root, with no rejection or sanitization of `".."`. -/
def artifactLocalPath (appdata relPath : String) : String :=
  ospJoin (librariesPath appdata) (splitChar '/' relPath)

/-- Lines 157-159: `if 'downloads' in library`, then
`artifact = library['downloads'].get('artifact', {})`, then
`if 'path' in artifact and 'url' in artifact`.  Returns the
`(path, url)` pair when the entry passes all three checks. -/
def includedArtifact (lib : Library) : Option (String × String) :=
  match lib.downloads with
  | none => none
  | some d =>
    match d.artifact with
    | none => none
    | some a =>
      match a.path, a.url with
      | some p, some u => some (p, u)
      | _, _ => none

/-- The classpath entry a library contributes in the loop of lines 156-162:
its artifact's local path if the entry has a complete artifact, nothing
otherwise.  `classpath_entries.append` runs whether or not the download
succeeded, so this does not depend on the fetch oracle. -/
def libraryClasspathContribution (appdata : String) (lib : Library) :
    List String :=
  match includedArtifact lib with
  | none => []
  | some pu => [artifactLocalPath appdata pu.1]

/-- The effect trace a library contributes in the loop of lines 156-162:
the `download_file` call for its artifact, if the entry has one. -/
def libraryDownloadEvents (fetchOk : String → Bool) (appdata : String)
    (lib : Library) : List Event :=
  match includedArtifact lib with
  | none => []
  | some pu => (download_file fetchOk pu.2 (artifactLocalPath appdata pu.1)).2

/-- `classpath_entries` as built by `download_version` (lines 154-162): the
main jar path first, then one entry per library with a complete artifact,
in the order the libraries appear in the descriptor. -/
def classpathEntries (appdata versionId : String) (libs : List Library) :
    List String :=
  jarPath appdata versionId ::
    libs.flatMap (libraryClasspathContribution appdata)

/-- `';'.join(classpath_entries)` (line 167): the persisted manifest joins
the entries with a literal semicolon. -/
def classpathFileContent (entries : List String) : String :=
  String.intercalate ";" entries

/-- The classpath that `launch_minecraft` independently recomputes (lines
226-233): `mc_jar` first, then for each library passing the same
`downloads`/`artifact`/`path`/`url` checks,
`os.path.join(mc_directory, "libraries", *artifact['path'].split('/'))`.
Transcribed separately from the launch-side code, to be compared with
`classpathEntries`. -/
def launch_classpath (appdata versionId : String) (libs : List Library) :
    List String :=
  let mcDirectory := ospJoin appdata [".minecraft"]
  ospJoin mcDirectory ["versions", versionId, versionId ++ ".jar"] ::
    libs.flatMap (fun lib =>
      match lib.downloads with
      | none => []
      | some d =>
        match d.artifact with
        | none => []
        | some a =>
          match a.path, a.url with
          | some p, some _ =>
            [ospJoin mcDirectory ("libraries" :: splitChar '/' p)]
          | _, _ => [])

/-- The effect trace of the `try` body of `download_version` (lines 134-171)
once the descriptor has been fetched successfully: create the version
directory if absent (lines 140-141), download the main jar (line 145),
write `<id>.json` (lines 147-149), run the library loop (lines 156-162),
and persist `classpath.txt` (lines 164-167). -/
def downloadVersionBodyEvents (fsExists : String → Bool)
    (fetchOk : String → Bool) (appdata versionId : String)
    (vd : Descriptor) : List Event :=
  let vdir := versionDir appdata versionId
  (if fsExists vdir then [] else [Event.mkdir vdir]) ++
    (download_file fetchOk vd.clientUrl (jarPath appdata versionId)).2 ++
    [Event.writeJson (ospJoin vdir [versionId ++ ".json"])] ++
    vd.libraries.flatMap (libraryDownloadEvents fetchOk appdata) ++
    [Event.writeText (ospJoin vdir ["classpath.txt"])
      (classpathFileContent (classpathEntries appdata versionId vd.libraries))]

/-- The `for version in versions_data['versions']` loop of `download_version`
(lines 132-175): for each index entry whose `id` matches, fetch its
descriptor (`requests.get(version_url).json()`, an unconditional network
GET); if that raises, the `except` handler logs and the loop continues with
the next entry; on success the body runs and `version_details` is returned.
If the loop ends without returning, the function returns `None`.
`details url` is the descriptor-fetch oracle (`none` = the GET or the JSON
parse raised). -/
def downloadVersionLoop (details : String → Option Descriptor)
    (fsExists : String → Bool) (fetchOk : String → Bool)
    (appdata versionId : String) :
    List IndexEntry → Option Descriptor × List Event
  | [] => (none, [])
  | v :: rest =>
    if v.id = versionId then
      match details v.url with
      | none =>
        let r := downloadVersionLoop details fsExists fetchOk appdata
          versionId rest
        (r.1, Event.fetch v.url :: r.2)
      | some vd =>
        (some vd, Event.fetch v.url ::
          downloadVersionBodyEvents fsExists fetchOk appdata versionId vd)
    else downloadVersionLoop details fsExists fetchOk appdata versionId rest

/-- `download_version(version_id)` (lines 129-175): `fetch_versions` first
(its result is `indexData`; `none` = index fetch failed, and the function
falls through to `return None` with no further effects), then the matching
loop. -/
def download_version (indexData : Option (List IndexEntry))
    (details : String → Option Descriptor) (fsExists : String → Bool)
    (fetchOk : String → Bool) (appdata versionId : String) :
    Option Descriptor × List Event :=
  match indexData with
  | none => (none, [])
  | some versions =>
    downloadVersionLoop details fsExists fetchOk appdata versionId versions

/-- `%USERPROFILE%/.minecraft/lwjgl-2.9.3`, the extraction target checked at
line 102. -/
def lwjglDir (home : String) : String :=
  ospJoin home [".minecraft", "lwjgl-2.9.3"]

/-- The LWJGL bundle URL (line 98). -/
def lwjglZipUrl : String :=
  "https://altushost-swe.dl.sourceforge.net/project/java-game-lib/Official%20Releases/LWJGL%202.9.3/lwjgl-2.9.3.zip"

/-- `download_lwjgl` (lines 97-127): if the extraction directory already
exists, the download and extraction are skipped entirely; otherwise the zip
is downloaded and, when the download returned a path, extracted into the
parent directory (extraction failure returns `None`; a failed download
falls through without returning).  Finally the two expected native DLLs are
checked; any missing one yields `None`, else the natives directory is
returned. -/
def download_lwjgl (home : String) (fsExists : String → Bool)
    (fetchOk : String → Bool) (extractOk : Bool) :
    Option String × List Event :=
  let zipPath := ospJoin home [".minecraft", "lwjgl-2.9.3.zip"]
  let nativesDir := ospJoin (lwjglDir home) ["lwjgl-2.9.3", "native", "windows"]
  let nativesCheck : Option String :=
    if fsExists (ospJoin nativesDir ["lwjgl.dll"])
        && fsExists (ospJoin nativesDir ["lwjgl64.dll"]) then
      some nativesDir
    else none
  if fsExists (lwjglDir home) then (nativesCheck, [])
  else
    match download_file fetchOk lwjglZipUrl zipPath with
    | (some _, es) =>
      if extractOk then
        (nativesCheck, es ++ [Event.extract (ospJoin home [".minecraft"])])
      else (none, es)
    | (none, es) => (nativesCheck, es)

/-- A `ProgressEvent` as emitted during a download: artifact name, bytes
done so far, total bytes when known. -/
structure ProgressEvent where
  name : String
  bytesDone : Nat
  bytesTotal : Option Nat
deriving DecidableEq, Repr

/-- Lines 67-70: `total_size = int(response.headers.get('content-length', 0))`
and `if total_size == 0: total_size = None`. -/
def totalSizeOf (contentLengthHeader : Option Nat) : Option Nat :=
  let t := contentLengthHeader.getD 0
  if t = 0 then none else some t

/-- The chunk loop of lines 82-88: every chunk is written to the file; the
progress report (`bar.update` plus the label/progress-bar refresh) runs only
under `if total_size is not None`, with `bar.n` advanced by the chunk
length.  `done` is `bar.n` before the current chunk. -/
def chunkProgress (name : String) (totalSize : Option Nat) :
    List Nat → Nat → List ProgressEvent
  | [], _ => []
  | c :: cs, done =>
    match totalSize with
    | none => chunkProgress name none cs done
    | some t =>
      ⟨name, done + c, some t⟩ :: chunkProgress name (some t) cs (done + c)

/-- The progress events one `download_file` call emits, given the declared
`content-length` header and the sizes of the streamed chunks. -/
def downloadProgressEvents (name : String) (contentLengthHeader : Option Nat)
    (chunks : List Nat) : List ProgressEvent :=
  chunkProgress name (totalSizeOf contentLengthHeader) chunks 0

/-- Whether a declared relative artifact path contains a parent-directory
segment (a `".."` among its `/`-separated segments). -/
def hasParentSegment (relPath : String) : Bool :=
  (splitChar '/' relPath).contains ".."

/-- Modelled from the spec: platform rule evaluation of §4.3, which is
absent from the source.  "Include the entry's artifacts only if the rule
set evaluates to applies for targetPlatform; a rule with no explicit
allow/deny for the current platform defaults to include."  Used only to
state which entries a rule set denies. -/
def specRulesAllow (rules : Option (List PlatformRule))
    (targetPlatform : String) : Bool :=
  match rules with
  | none => true
  | some rs =>
    match rs.find? (fun r => r.os = targetPlatform) with
    | some r => r.applies
    | none => true

/-! ### Theorems -/

/-- C5: for every built classpath, the main jar's local path is the head,
and the library entries after it compose over the descriptor's library
list in order (so each library's contribution appears exactly where the
descriptor places it). -/
theorem c5_main_jar_first_then_descriptor_order (appdata versionId : String)
    (libs libs1 libs2 : List Library) :
    (classpathEntries appdata versionId libs).head? =
        some (jarPath appdata versionId) ∧
      (classpathEntries appdata versionId (libs1 ++ libs2)).tail =
        (classpathEntries appdata versionId libs1).tail ++
          (classpathEntries appdata versionId libs2).tail := by
  constructor
  · rfl
  · simp [classpathEntries]

/-- C8: the classpath that `launch_minecraft` recomputes from a descriptor
(lines 226-233) is exactly the classpath `download_version` built and wrote
to `classpath.txt` (lines 154-167): same jar head, same library paths in
the same order. -/
theorem c8_launch_classpath_eq_download_classpath
    (appdata versionId : String) (libs : List Library) :
    launch_classpath appdata versionId libs =
      classpathEntries appdata versionId libs := by
  simp only [launch_classpath, classpathEntries]
  congr 1
  induction libs with
  | nil => rfl
  | cons lib rest ih =>
    simp only [List.flatMap_cons]
    refine congrArg₂ (· ++ ·) ?_ ih
    rcases lib with ⟨d, r⟩
    rcases d with _ | ⟨a⟩
    · rfl
    rcases a with _ | ⟨p, u⟩
    · rfl
    rcases p with _ | p <;> rcases u with _ | u <;> rfl

/-- C9: a library entry with no `downloads` key, or whose `downloads` has
no `artifact` carrying both a `path` and a `url`, is silently skipped:
inserting such an entry anywhere in a descriptor's library list changes
neither the effect trace of a successful `download_version` body (no
download is attempted, nothing fails) nor the classpath. -/
theorem c9_incomplete_entry_silently_skipped
    (appdata versionId : String) (fsExists fetchOk : String → Bool)
    (mainClass clientUrl : String) (lib : Library)
    (pre post : List Library)
    (h : lib.downloads = none ∨
      ∃ d, lib.downloads = some d ∧
        (d.artifact = none ∨
          ∃ a, d.artifact = some a ∧ (a.path = none ∨ a.url = none))) :
    downloadVersionBodyEvents fsExists fetchOk appdata versionId
        ⟨mainClass, clientUrl, pre ++ lib :: post⟩ =
      downloadVersionBodyEvents fsExists fetchOk appdata versionId
        ⟨mainClass, clientUrl, pre ++ post⟩ ∧
      classpathEntries appdata versionId (pre ++ lib :: post) =
        classpathEntries appdata versionId (pre ++ post) := by
  have hart : includedArtifact lib = none := by
    rcases h with h | ⟨d, hd, h⟩
    · simp [includedArtifact, h]
    rcases h with h | ⟨a, ha, h⟩
    · simp [includedArtifact, hd, h]
    rcases h with h | h
    · simp [includedArtifact, hd, ha, h]
    · rcases hp : a.path with _ | p <;>
        simp [includedArtifact, hd, ha, h, hp]
  have hcp : classpathEntries appdata versionId (pre ++ lib :: post) =
      classpathEntries appdata versionId (pre ++ post) := by
    simp [classpathEntries, libraryClasspathContribution, hart]
  refine ⟨?_, hcp⟩
  simp [downloadVersionBodyEvents, hcp, libraryDownloadEvents, hart]

/-- C9 witness: a library entry whose `downloads` is absent is skipped. -/
theorem c9_witness :
    ((⟨none, none⟩ : Library).downloads = none ∨
      ∃ d, (⟨none, none⟩ : Library).downloads = some d ∧
        (d.artifact = none ∨
          ∃ a, d.artifact = some a ∧ (a.path = none ∨ a.url = none))) ∧
      (downloadVersionBodyEvents (fun _ => false) (fun _ => true) "A" "1.0"
          ⟨"M", "ju", [] ++ (⟨none, none⟩ : Library) :: []⟩ =
        downloadVersionBodyEvents (fun _ => false) (fun _ => true) "A" "1.0"
          ⟨"M", "ju", [] ++ []⟩ ∧
        classpathEntries "A" "1.0" ([] ++ (⟨none, none⟩ : Library) :: []) =
          classpathEntries "A" "1.0" ([] ++ [])) :=
  ⟨Or.inl rfl,
    c9_incomplete_entry_silently_skipped "A" "1.0" (fun _ => false)
      (fun _ => true) "M" "ju" ⟨none, none⟩ [] [] (Or.inl rfl)⟩

/-- C10: when the requested version id matches no entry of the successfully
fetched index, `download_version` returns `None` and its effect trace is
empty — no artifact is downloaded and nothing is written. -/
theorem c10_unknown_id_no_effects
    (details : String → Option Descriptor) (fsExists fetchOk : String → Bool)
    (appdata versionId : String) (versions : List IndexEntry)
    (h : ∀ v ∈ versions, v.id ≠ versionId) :
    download_version (some versions) details fsExists fetchOk appdata
      versionId = (none, []) := by
  induction versions with
  | nil => rfl
  | cons v rest ih =>
    have hv : ¬ v.id = versionId := h v (List.mem_cons_self v rest)
    have hrest : ∀ w ∈ rest, w.id ≠ versionId := fun w hw =>
      h w (List.mem_cons_of_mem v hw)
    simpa [download_version, downloadVersionLoop, hv] using ih hrest

/-- C10 witness: looking up version `"2.0"` in an index containing only
`"1.0"` yields `None` with an empty trace. -/
theorem c10_witness :
    (∀ v ∈ [(⟨"1.0", "vu"⟩ : IndexEntry)], v.id ≠ "2.0") ∧
      download_version (some [(⟨"1.0", "vu"⟩ : IndexEntry)])
        (fun _ => some ⟨"M", "ju", []⟩) (fun _ => false) (fun _ => true)
        "A" "2.0" = (none, []) :=
  ⟨by decide,
    c10_unknown_id_no_effects (fun _ => some ⟨"M", "ju", []⟩)
      (fun _ => false) (fun _ => true) "A" "2.0"
      [(⟨"1.0", "vu"⟩ : IndexEntry)] (by decide)⟩

/-- C1: the code performs no parent-directory check at all.  Resolving a
descriptor whose library declares the relative path `"../../evil.jar"`
succeeds: the traversal path is joined under the libraries root and written
through (`download_file` creates directories and writes the file there),
and the path even enters the classpath — no rejection occurs before the
file-system write. -/
theorem c1_traversal_written_through_not_rejected :
    hasParentSegment "../../evil.jar" = true ∧
      (download_version (some [⟨"1.0", "vu"⟩])
          (fun u => if u = "vu" then some ⟨"M", "ju",
            [⟨some ⟨some ⟨some "../../evil.jar", some "eu"⟩⟩, none⟩]⟩
          else none)
          (fun _ => false) (fun _ => true) "A" "1.0").1.isSome = true ∧
      Event.fileWrite (artifactLocalPath "A" "../../evil.jar") ∈
        (download_version (some [⟨"1.0", "vu"⟩])
          (fun u => if u = "vu" then some ⟨"M", "ju",
            [⟨some ⟨some ⟨some "../../evil.jar", some "eu"⟩⟩, none⟩]⟩
          else none)
          (fun _ => false) (fun _ => true) "A" "1.0").2 ∧
      artifactLocalPath "A" "../../evil.jar" ∈
        classpathEntries "A" "1.0"
          [⟨some ⟨some ⟨some "../../evil.jar", some "eu"⟩⟩, none⟩] := by
  decide

/-- C2: a failed artifact download is swallowed.  With a fetch oracle that
fails exactly on the library URL `"libu"`, `download_file` signals the
failure by returning `None`, yet `download_version` ignores that result:
it still returns the descriptor (success, no typed error), and the failed
artifact's local path is still a classpath entry. -/
theorem c2_failed_download_swallowed_and_on_classpath :
    (download_file (fun u => u != "libu") "libu"
        (artifactLocalPath "A" "org/x/y.jar")).1 = none ∧
      (download_version (some [⟨"1.0", "vu"⟩])
          (fun u => if u = "vu" then some ⟨"M", "ju",
            [⟨some ⟨some ⟨some "org/x/y.jar", some "libu"⟩⟩, none⟩]⟩
          else none)
          (fun _ => false) (fun u => u != "libu") "A" "1.0").1 =
        some ⟨"M", "ju",
          [⟨some ⟨some ⟨some "org/x/y.jar", some "libu"⟩⟩, none⟩]⟩ ∧
      artifactLocalPath "A" "org/x/y.jar" ∈
        classpathEntries "A" "1.0"
          [⟨some ⟨some ⟨some "org/x/y.jar", some "libu"⟩⟩, none⟩] := by
  decide

/-- Helper for C3: the network fetches the `download_version` body issues do
not depend on what exists on disk (the existence oracle only affects the
version-directory `mkdir`). -/
theorem bodyFetchesIndep (e1 e2 fetchOk : String → Bool)
    (appdata versionId : String) (vd : Descriptor) :
    (downloadVersionBodyEvents e1 fetchOk appdata versionId vd).filter
        Event.isFetch =
      (downloadVersionBodyEvents e2 fetchOk appdata versionId vd).filter
        Event.isFetch := by
  simp only [downloadVersionBodyEvents, List.filter_append]
  congr 1
  split <;> split <;> rfl

/-- Helper for C3: over the whole matching loop, both the returned
descriptor and the set of network fetches are independent of the
file-system existence oracle. -/
theorem loopFetchesIndep (details : String → Option Descriptor)
    (e1 e2 fetchOk : String → Bool) (appdata versionId : String)
    (versions : List IndexEntry) :
    (downloadVersionLoop details e1 fetchOk appdata versionId versions).1 =
        (downloadVersionLoop details e2 fetchOk appdata versionId
          versions).1 ∧
      (downloadVersionLoop details e1 fetchOk appdata versionId
          versions).2.filter Event.isFetch =
        (downloadVersionLoop details e2 fetchOk appdata versionId
          versions).2.filter Event.isFetch := by
  induction versions with
  | nil => exact ⟨rfl, rfl⟩
  | cons w rest ih =>
    by_cases hid : w.id = versionId
    · cases hdet : details w.url with
      | none =>
        simp only [downloadVersionLoop, hid, if_true, hdet,
          List.filter_cons, Event.isFetch]
        exact ⟨ih.1, by simp [ih.2]⟩
      | some vd =>
        simp only [downloadVersionLoop, hid, if_true, hdet,
          List.filter_cons, Event.isFetch]
        simp [bodyFetchesIndep e1 e2 fetchOk appdata versionId vd]
    · simpa [downloadVersionLoop, hid] using ih

/-- C3 (amended): the pipeline consults the cache only for the fixed LWJGL
bundle — when the LWJGL extraction directory exists, its download is
skipped entirely ([] trace).  `download_version` performs no
exists-on-disk check for the main jar or libraries: its result and its
network fetches are identical whatever the existence oracle says, so a
second run against a fully materialized cache re-downloads everything (and
produces the identical classpath, which depends on no oracle). -/
theorem c3_cache_skip_only_for_lwjgl
    (indexData : Option (List IndexEntry))
    (details : String → Option Descriptor)
    (e1 e2 fetchOk : String → Bool) (appdata versionId home : String)
    (exLwjgl fetchOk2 : String → Bool) (extractOk : Bool)
    (h : exLwjgl (lwjglDir home) = true) :
    ((download_version indexData details e1 fetchOk appdata versionId).1 =
        (download_version indexData details e2 fetchOk appdata
          versionId).1 ∧
      (download_version indexData details e1 fetchOk appdata
          versionId).2.filter Event.isFetch =
        (download_version indexData details e2 fetchOk appdata
          versionId).2.filter Event.isFetch) ∧
      (download_lwjgl home exLwjgl fetchOk2 extractOk).2 = [] := by
  constructor
  · cases indexData with
    | none => exact ⟨rfl, rfl⟩
    | some versions =>
      exact loopFetchesIndep details e1 e2 fetchOk appdata versionId versions
  · simp [download_lwjgl, h]

/-- C3 witness: concrete instantiation — an always-exists file system skips
the LWJGL download, while the version pipeline's fetches are unchanged
between an empty and a full cache. -/
theorem c3_witness :
    ((fun _ : String => true) (lwjglDir "H") = true) ∧
      (((download_version (some [⟨"1.0", "vu"⟩])
            (fun u => if u = "vu" then some ⟨"M", "ju", []⟩ else none)
            (fun _ => true) (fun _ => true) "A" "1.0").1 =
          (download_version (some [⟨"1.0", "vu"⟩])
            (fun u => if u = "vu" then some ⟨"M", "ju", []⟩ else none)
            (fun _ => false) (fun _ => true) "A" "1.0").1 ∧
        (download_version (some [⟨"1.0", "vu"⟩])
            (fun u => if u = "vu" then some ⟨"M", "ju", []⟩ else none)
            (fun _ => true) (fun _ => true) "A" "1.0").2.filter
            Event.isFetch =
          (download_version (some [⟨"1.0", "vu"⟩])
            (fun u => if u = "vu" then some ⟨"M", "ju", []⟩ else none)
            (fun _ => false) (fun _ => true) "A" "1.0").2.filter
            Event.isFetch) ∧
        (download_lwjgl "H" (fun _ => true) (fun _ => true) true).2 = []) :=
  ⟨rfl,
    c3_cache_skip_only_for_lwjgl (some [⟨"1.0", "vu"⟩])
      (fun u => if u = "vu" then some ⟨"M", "ju", []⟩ else none)
      (fun _ => true) (fun _ => false) (fun _ => true) "A" "1.0" "H"
      (fun _ => true) (fun _ => true) true rfl⟩

/-- C3 counterexample: against a fully materialized cache (every local path
exists), the run still issues the network fetch for the main jar, so the
fetcher is invoked for an artifact whose computed local path exists and the
second run does not perform zero downloads. -/
theorem c3_cx_refetch_despite_full_cache :
    ((fun _ : String => true) (jarPath "A" "1.0") = true) ∧
      Event.fetch "ju" ∈ (download_version (some [⟨"1.0", "vu"⟩])
        (fun u => if u = "vu" then some ⟨"M", "ju", []⟩ else none)
        (fun _ => true) (fun _ => true) "A" "1.0").2 :=
  ⟨rfl, by decide⟩

/-- C4 (amended): resolution never consults `platformRules` — rewriting the
rules of every library arbitrarily changes neither the classpath nor the
download trace, so an entry with a complete artifact is included on every
platform, whatever its rules say (in particular the default-include for
rule sets with no decision holds, but so does inclusion of denied
entries). -/
theorem c4_rules_never_consulted (appdata versionId : String)
    (fetchOk : String → Bool) (libs : List Library)
    (f : Library → Option (List PlatformRule)) :
    classpathEntries appdata versionId
        (libs.map fun l => ⟨l.downloads, f l⟩) =
      classpathEntries appdata versionId libs ∧
      (libs.map fun l => ⟨l.downloads, f l⟩).flatMap
          (libraryDownloadEvents fetchOk appdata) =
        libs.flatMap (libraryDownloadEvents fetchOk appdata) := by
  constructor
  · simp only [classpathEntries, List.flatMap_map]
    rfl
  · simp only [List.flatMap_map]
    rfl

/-- C4 counterexample: a library whose rules deny platform `"windows"`
(under the spec's rule evaluation) is nevertheless resolved for
`"windows"`: its artifact is on the classpath and its download is
attempted. -/
theorem c4_cx_denied_entry_still_included :
    specRulesAllow (some [⟨"windows", false⟩]) "windows" = false ∧
      artifactLocalPath "A" "a/b/c.jar" ∈ classpathEntries "A" "1.0"
        [⟨some ⟨some ⟨some "a/b/c.jar", some "u"⟩⟩,
          some [⟨"windows", false⟩]⟩] ∧
      Event.fetch "u" ∈
        ([(⟨some ⟨some ⟨some "a/b/c.jar", some "u"⟩⟩,
            some [⟨"windows", false⟩]⟩ : Library)]).flatMap
          (libraryDownloadEvents (fun _ => true) "A") := by
  decide

/-- Helper for C6: with no declared total size, the chunk loop emits no
progress events at all (the report is guarded by
`if total_size is not None`). -/
theorem chunkProgressNone (name : String) (chunks : List Nat) (done : Nat) :
    chunkProgress name none chunks done = [] := by
  induction chunks generalizing done with
  | nil => rfl
  | cons c cs ih => simpa [chunkProgress] using ih done

/-- Helper for C6: with a declared total size `t`, the loop emits one event
per chunk, each carrying `bytesTotal = some t`. -/
theorem chunkProgressSome (name : String) (t : Nat) (chunks : List Nat)
    (done : Nat) :
    (chunkProgress name (some t) chunks done).length = chunks.length ∧
      (chunkProgress name (some t) chunks done).all
        (fun e => e.bytesTotal == some t) = true := by
  induction chunks generalizing done with
  | nil => exact ⟨rfl, rfl⟩
  | cons c cs ih =>
    refine ⟨?_, ?_⟩
    · simpa [chunkProgress] using (ih (done + c)).1
    · simpa [chunkProgress, List.all_cons] using (ih (done + c)).2

/-- C6 (amended): progress events are emitted after each chunk only when the
remote declares a (non-zero) content length, each event carrying that total;
when the length is unknown (`total_size` is `None`) the per-chunk report is
skipped entirely and no progress events are emitted at all. -/
theorem c6_progress_only_when_length_known (name : String)
    (clh clh2 : Option Nat) (chunks chunks2 : List Nat) (t : Nat)
    (h : totalSizeOf clh = some t) (h2 : totalSizeOf clh2 = none) :
    (downloadProgressEvents name clh chunks).length = chunks.length ∧
      (downloadProgressEvents name clh chunks).all
        (fun e => e.bytesTotal == some t) = true ∧
      downloadProgressEvents name clh2 chunks2 = [] := by
  refine ⟨?_, ?_, ?_⟩
  · simpa [downloadProgressEvents, h] using (chunkProgressSome name t chunks 0).1
  · simpa [downloadProgressEvents, h] using (chunkProgressSome name t chunks 0).2
  · simp [downloadProgressEvents, h2, chunkProgressNone]

/-- C6 witness: a download with declared length 10 streamed in chunks of 4
emits two events totalling `some 10`; one with no declared length emits
none. -/
theorem c6_witness :
    totalSizeOf (some 10) = some 10 ∧ totalSizeOf none = none ∧
      ((downloadProgressEvents "f.jar" (some 10) [4, 4]).length =
          ([4, 4] : List Nat).length ∧
        (downloadProgressEvents "f.jar" (some 10) [4, 4]).all
          (fun e => e.bytesTotal == some 10) = true ∧
        downloadProgressEvents "f.jar" none [8192] = []) :=
  ⟨rfl, rfl,
    c6_progress_only_when_length_known "f.jar" (some 10) none [4, 4] [8192]
      10 rfl rfl⟩

/-- C6 counterexample: a download whose remote declares no content length
streams two chunks yet emits zero progress events — not events with
`bytesTotal = null` as claimed. -/
theorem c6_cx_no_events_when_length_unknown :
    downloadProgressEvents "f.jar" none [8192, 100] = [] ∧
      ([8192, 100] : List Nat) ≠ [] := by
  exact ⟨chunkProgressNone "f.jar" [8192, 100] 0, by decide⟩

/-- C7 (amended): every successful `download_version` run persists the
classpath manifest at `<versions root>/<id>/classpath.txt`, containing the
ordered entries joined by the literal `';'` character (which is the
platform path separator on Windows only). -/
theorem c7_manifest_persisted_semicolon_joined
    (details : String → Option Descriptor) (fsExists fetchOk : String → Bool)
    (appdata versionId : String) (versions : List IndexEntry)
    (vd : Descriptor)
    (h : (download_version (some versions) details fsExists fetchOk appdata
        versionId).1 = some vd) :
    Event.writeText (ospJoin (versionDir appdata versionId)
        ["classpath.txt"])
        (classpathFileContent
          (classpathEntries appdata versionId vd.libraries)) ∈
      (download_version (some versions) details fsExists fetchOk appdata
        versionId).2 := by
  simp only [download_version] at h ⊢
  induction versions with
  | nil => simp [downloadVersionLoop] at h
  | cons w rest ih =>
    by_cases hid : w.id = versionId
    · cases hdet : details w.url with
      | none =>
        simp only [downloadVersionLoop, hid, if_true, hdet] at h ⊢
        exact List.mem_cons_of_mem _ (ih h)
      | some vd2 =>
        simp only [downloadVersionLoop, hid, if_true, hdet] at h ⊢
        obtain rfl : vd2 = vd := by
          simpa using h
        simp [downloadVersionBodyEvents]
    · simp only [downloadVersionLoop, hid, if_false] at h ⊢
      exact ih h

/-- C7 witness: a successful concrete run writes `classpath.txt` under the
version directory with the semicolon-joined entries. -/
theorem c7_witness :
    (download_version (some [⟨"1.0", "vu"⟩])
        (fun u => if u = "vu" then some ⟨"M", "ju", []⟩ else none)
        (fun _ => false) (fun _ => true) "A" "1.0").1 =
      some ⟨"M", "ju", []⟩ ∧
      Event.writeText (ospJoin (versionDir "A" "1.0") ["classpath.txt"])
          (classpathFileContent (classpathEntries "A" "1.0"
            (⟨"M", "ju", []⟩ : Descriptor).libraries)) ∈
        (download_version (some [⟨"1.0", "vu"⟩])
          (fun u => if u = "vu" then some ⟨"M", "ju", []⟩ else none)
          (fun _ => false) (fun _ => true) "A" "1.0").2 :=
  ⟨by decide,
    c7_manifest_persisted_semicolon_joined
      (fun u => if u = "vu" then some ⟨"M", "ju", []⟩ else none)
      (fun _ => false) (fun _ => true) "A" "1.0" [⟨"1.0", "vu"⟩]
      ⟨"M", "ju", []⟩ (by decide)⟩

/-- C7 counterexample: the manifest content is joined with the literal
`';'`, not the platform path separator: on a platform whose separator is
`':'` (POSIX `os.pathsep`), the written content differs from the
pathsep-join of the same entries. -/
theorem c7_cx_semicolon_is_not_platform_pathsep :
    classpathFileContent ["p", "q"] ≠ String.intercalate ":" ["p", "q"] ∧
      (";" : String) ≠ ":" := by
  decide

end MpyL
